import Mathlib

/-!
# Verification of the windoge98 faucet canister

Shallow embedding of `src/windoge98-faucet-backend/src/lib.rs`.

The canister keeps a single process-wide `State`.  Every update method
acquires the state, runs `assert!`-style precondition checks, and mutates
it in place; a failed assertion traps, and the host rolls the state back
unchanged.  We embed each update method as a pure function
`State → Except FaucetError State`: the `Except.error` branch models the
trap (one error constructor per distinct assertion message), and
`Except.ok` carries the mutated state.  The host-provided caller identity
becomes an explicit `Principal` argument.

Rust collections are embedded as lists:
* `HashSet<Principal>` (custodians) — a duplicate-free list; `insert`
  appends when absent, `remove` filters, `contains` is membership;
* `Vec<Principal>` / `Vec<(Principal,u64)>` — a list, `push` appends at
  the back;
* `VecDeque<(Principal,u64)>` (recent_claims) — a list whose head is the
  deque front; `push_back` appends at the back and `iter` walks front to
  back, so `get_recent_claims` returns the list itself.

`Principal` is an opaque caller identity; we embed it as `Nat`.
`u64` amounts are embedded as `Nat` (the code does no arithmetic on them,
so overflow cannot arise).
-/

/-- Opaque caller identity (`candid::Principal`). -/
abbrev Principal := Nat

/-- The canister state (`struct State` in lib.rs, lines 12-21). -/
structure State where
  custodians : List Principal
  is_faucet_enabled : Bool
  faucet_code : String
  faucet_amount : Nat
  claimed_principals : List Principal
  recent_claims : List (Principal × Nat)
  total_claims : List (Principal × Nat)
deriving DecidableEq, Repr

/-- Rust `Default::default()` for `State`: empty collections, `false`, `""`, `0`. -/
def State.default : State :=
  { custodians := []
    is_faucet_enabled := false
    faucet_code := ""
    faucet_amount := 0
    claimed_principals := []
    recent_claims := []
    total_claims := [] }

/-- One error constructor per distinct `assert!` message in lib.rs. -/
inductive FaucetError where
  | Unauthorized
  | FaucetDisabled
  | InvalidCode
  | AlreadyClaimed
deriving DecidableEq, Repr

/-- Rust `HashSet::insert`: adds the element when absent (sets never hold duplicates). -/
def hashsetInsert (x : Principal) (l : List Principal) : List Principal :=
  if x ∈ l then l else l ++ [x]

/-- Rust `HashSet::remove`: drops the element. -/
def hashsetRemove (x : Principal) (l : List Principal) : List Principal :=
  l.filter (fun y => decide (y ≠ x))

/-- Embeds `init` (lib.rs 30-35): the deploying caller is inserted into the empty
default custodian set. -/
def init (caller : Principal) : State :=
  { State.default with custodians := hashsetInsert caller State.default.custodians }

/-- Embeds `add_custodian` (lib.rs 70-79). -/
def add_custodian (caller custodian : Principal) (s : State) :
    Except FaucetError State :=
  if caller ∈ s.custodians then
    Except.ok { s with custodians := hashsetInsert custodian s.custodians }
  else
    Except.error FaucetError.Unauthorized

/-- Embeds `remove_custodian` (lib.rs 83-92). -/
def remove_custodian (caller custodian : Principal) (s : State) :
    Except FaucetError State :=
  if caller ∈ s.custodians then
    Except.ok { s with custodians := hashsetRemove custodian s.custodians }
  else
    Except.error FaucetError.Unauthorized

/-- Embeds `toggle_faucet` (lib.rs 96-105). -/
def toggle_faucet (caller : Principal) (is_enabled : Bool) (s : State) :
    Except FaucetError State :=
  if caller ∈ s.custodians then
    Except.ok { s with is_faucet_enabled := is_enabled }
  else
    Except.error FaucetError.Unauthorized

/-- Embeds `set_faucet_code` (lib.rs 109-118). -/
def set_faucet_code (caller : Principal) (code : String) (s : State) :
    Except FaucetError State :=
  if caller ∈ s.custodians then
    Except.ok { s with faucet_code := code }
  else
    Except.error FaucetError.Unauthorized

/-- Embeds `set_faucet_amount` (lib.rs 122-131). -/
def set_faucet_amount (caller : Principal) (amount : Nat) (s : State) :
    Except FaucetError State :=
  if caller ∈ s.custodians then
    Except.ok { s with faucet_amount := amount }
  else
    Except.error FaucetError.Unauthorized

/-- Embeds `reset_claimed_principals` (lib.rs 135-144): clears `claimed_principals`
only. -/
def reset_claimed_principals (caller : Principal) (s : State) :
    Except FaucetError State :=
  if caller ∈ s.custodians then
    Except.ok { s with claimed_principals := [] }
  else
    Except.error FaucetError.Unauthorized

/-- Embeds `claim_faucet` (lib.rs 148-169): three asserts in order (enabled, code
equality, not-yet-claimed), then push the caller into `claimed_principals`,
`push_back` onto `recent_claims` and `push` onto `total_claims`. -/
def claim_faucet (caller : Principal) (code : String) (s : State) :
    Except FaucetError State :=
  if s.is_faucet_enabled = false then
    Except.error FaucetError.FaucetDisabled
  else if code ≠ s.faucet_code then
    Except.error FaucetError.InvalidCode
  else if caller ∈ s.claimed_principals then
    Except.error FaucetError.AlreadyClaimed
  else
    Except.ok
      { s with
        claimed_principals := s.claimed_principals ++ [caller]
        recent_claims := s.recent_claims ++ [(caller, s.faucet_amount)]
        total_claims := s.total_claims ++ [(caller, s.faucet_amount)] }

/-- Embeds `get_recent_claims` (lib.rs 173-178): iterates the deque front to back
and collects, i.e. returns the list as stored. -/
def get_recent_claims (s : State) : List (Principal × Nat) :=
  s.recent_claims

/-- Embeds `get_total_claims` (lib.rs 182-187): clones the vector. -/
def get_total_claims (s : State) : List (Principal × Nat) :=
  s.total_claims

/-- Embeds `pre_upgrade` (lib.rs 39-53): clones every field of the live state into
an owned snapshot and writes it to stable storage.  Candid
encoding of the snapshot is host plumbing; stable storage is embedded as a
typed cell holding the snapshot value. -/
def pre_upgrade (s : State) : State :=
  { custodians := s.custodians
    is_faucet_enabled := s.is_faucet_enabled
    faucet_code := s.faucet_code
    faucet_amount := s.faucet_amount
    claimed_principals := s.claimed_principals
    recent_claims := s.recent_claims
    total_claims := s.total_claims }

/-- Embeds `post_upgrade` (lib.rs 57-62): the restored snapshot becomes the live
state. -/
def post_upgrade (saved : State) : State :=
  saved

/-- The canister's update operations, with the host-resolved caller as
explicit data; `upgrade` is the suspend/resume cycle. -/
inductive Op where
  | addCustodian (caller custodian : Principal)
  | removeCustodian (caller custodian : Principal)
  | toggleFaucet (caller : Principal) (is_enabled : Bool)
  | setFaucetCode (caller : Principal) (code : String)
  | setFaucetAmount (caller : Principal) (amount : Nat)
  | resetClaimed (caller : Principal)
  | claimFaucet (caller : Principal) (code : String)
  | upgrade

/-- Dispatch one update call; the host keeps the old state on a trap. -/
def apply (op : Op) (s : State) : State :=
  match op with
  | Op.addCustodian caller c =>
      match add_custodian caller c s with
      | Except.ok s2 => s2
      | Except.error _ => s
  | Op.removeCustodian caller c =>
      match remove_custodian caller c s with
      | Except.ok s2 => s2
      | Except.error _ => s
  | Op.toggleFaucet caller b =>
      match toggle_faucet caller b s with
      | Except.ok s2 => s2
      | Except.error _ => s
  | Op.setFaucetCode caller code =>
      match set_faucet_code caller code s with
      | Except.ok s2 => s2
      | Except.error _ => s
  | Op.setFaucetAmount caller amount =>
      match set_faucet_amount caller amount s with
      | Except.ok s2 => s2
      | Except.error _ => s
  | Op.resetClaimed caller =>
      match reset_claimed_principals caller s with
      | Except.ok s2 => s2
      | Except.error _ => s
  | Op.claimFaucet caller code =>
      match claim_faucet caller code s with
      | Except.ok s2 => s2
      | Except.error _ => s
  | Op.upgrade => post_upgrade (pre_upgrade s)

/-- Run a sequence of update calls from a starting state. -/
def applyOps (ops : List Op) (s : State) : State :=
  match ops with
  | [] => s
  | op :: rest => applyOps rest (apply op s)

/-- Whether `op` is a claim that succeeds in state `s`. -/
def isSuccessfulClaim (op : Op) (s : State) : Bool :=
  match op with
  | Op.claimFaucet caller code =>
      match claim_faucet caller code s with
      | Except.ok _ => true
      | Except.error _ => false
  | _ => false

/-- Number of successful claims along a run. -/
def successCount (ops : List Op) (s : State) : Nat :=
  match ops with
  | [] => 0
  | op :: rest =>
      (if isSuccessfulClaim op s then 1 else 0) + successCount rest (apply op s)

/-! Example states used by the witness theorems. -/

/-- A concrete state with the faucet disabled. -/
def stDisabled : State :=
  { State.default with custodians := [0], faucet_code := "abc" }

/-- A concrete state with the faucet enabled and code `"abc"`. -/
def stEnabled : State :=
  { State.default with
    custodians := [0], is_faucet_enabled := true, faucet_code := "abc",
    faucet_amount := 5 }

/-- The state `stEnabled` after identity `1` has claimed. -/
def stClaimed : State :=
  { stEnabled with
    claimed_principals := [1]
    recent_claims := [(1, 5)]
    total_claims := [(1, 5)] }

/-- A run of 11 successful claims: custodian `0` enables the faucet (the
default code is `""`), then identities `1..11` each claim once. -/
def opsEleven : List Op :=
  [Op.toggleFaucet 0 true,
   Op.claimFaucet 1 "", Op.claimFaucet 2 "", Op.claimFaucet 3 "",
   Op.claimFaucet 4 "", Op.claimFaucet 5 "", Op.claimFaucet 6 "",
   Op.claimFaucet 7 "", Op.claimFaucet 8 "", Op.claimFaucet 9 "",
   Op.claimFaucet 10 "", Op.claimFaucet 11 ""]

/-!  ## Shared helper lemmas  -/

/-- Inversion for a successful claim: all three preconditions held and the
result state is the original with exactly the three appends. -/
theorem claim_faucet_ok_inv {s s2 : State} {caller : Principal} {code : String}
    (h : claim_faucet caller code s = Except.ok s2) :
    s.is_faucet_enabled = true ∧ code = s.faucet_code
    ∧ caller ∉ s.claimed_principals
    ∧ s2 = { s with
        claimed_principals := s.claimed_principals ++ [caller]
        recent_claims := s.recent_claims ++ [(caller, s.faucet_amount)]
        total_claims := s.total_claims ++ [(caller, s.faucet_amount)] } := by
  by_cases h1 : s.is_faucet_enabled = false
  · simp [claim_faucet, h1] at h
  · by_cases h2 : code = s.faucet_code
    · by_cases h3 : caller ∈ s.claimed_principals
      · simp [claim_faucet, h1, h2, h3] at h
      · refine ⟨by simpa using h1, h2, h3, ?_⟩
        simp [claim_faucet, h1, h2, h3] at h
        have hen : s.is_faucet_enabled = true := by simpa using h1
        rw [hen]
        exact h.symm
    · simp [claim_faucet, h1, h2] at h

/-- A claim op either fails and the host keeps the state, or succeeds on a
not-yet-claimed caller and performs exactly the three appends. -/
theorem apply_claim_eq (caller : Principal) (code : String) (s : State) :
    (isSuccessfulClaim (Op.claimFaucet caller code) s = false
      ∧ apply (Op.claimFaucet caller code) s = s)
    ∨ (isSuccessfulClaim (Op.claimFaucet caller code) s = true
      ∧ caller ∉ s.claimed_principals
      ∧ apply (Op.claimFaucet caller code) s = { s with
          claimed_principals := s.claimed_principals ++ [caller]
          recent_claims := s.recent_claims ++ [(caller, s.faucet_amount)]
          total_claims := s.total_claims ++ [(caller, s.faucet_amount)] }) := by
  cases hc : claim_faucet caller code s with
  | ok s2 =>
      obtain ⟨_, _, h3, hs2⟩ := claim_faucet_ok_inv hc
      exact Or.inr ⟨by simp [isSuccessfulClaim, hc], h3, by simp [apply, hc, hs2]⟩
  | error e =>
      exact Or.inl ⟨by simp [isSuccessfulClaim, hc], by simp [apply, hc]⟩

/-- One update step changes each log's length by one exactly when it is a
successful claim. -/
theorem apply_log_length_step (op : Op) (s : State) :
    (apply op s).recent_claims.length
      = s.recent_claims.length + (if isSuccessfulClaim op s then 1 else 0)
    ∧ (apply op s).total_claims.length
      = s.total_claims.length + (if isSuccessfulClaim op s then 1 else 0) := by
  cases op with
  | addCustodian caller c =>
      by_cases hc : caller ∈ s.custodians <;>
        simp [apply, add_custodian, hc, isSuccessfulClaim]
  | removeCustodian caller c =>
      by_cases hc : caller ∈ s.custodians <;>
        simp [apply, remove_custodian, hc, isSuccessfulClaim]
  | toggleFaucet caller b =>
      by_cases hc : caller ∈ s.custodians <;>
        simp [apply, toggle_faucet, hc, isSuccessfulClaim]
  | setFaucetCode caller code =>
      by_cases hc : caller ∈ s.custodians <;>
        simp [apply, set_faucet_code, hc, isSuccessfulClaim]
  | setFaucetAmount caller amt =>
      by_cases hc : caller ∈ s.custodians <;>
        simp [apply, set_faucet_amount, hc, isSuccessfulClaim]
  | resetClaimed caller =>
      by_cases hc : caller ∈ s.custodians <;>
        simp [apply, reset_claimed_principals, hc, isSuccessfulClaim]
  | claimFaucet caller code =>
      rcases apply_claim_eq caller code s with ⟨hf, he⟩ | ⟨ht, _, he⟩
      · simp [he, hf]
      · simp [he, ht]
  | upgrade =>
      simp [apply, post_upgrade, pre_upgrade, isSuccessfulClaim]

/-- Along any run, each log's length grows by the number of successful
claims. -/
theorem applyOps_log_lengths (ops : List Op) (s : State) :
    (applyOps ops s).recent_claims.length
      = s.recent_claims.length + successCount ops s
    ∧ (applyOps ops s).total_claims.length
      = s.total_claims.length + successCount ops s := by
  induction ops generalizing s with
  | nil => simp [applyOps, successCount]
  | cons op rest ih =>
      have hstep := apply_log_length_step op s
      have hrest := ih (apply op s)
      constructor
      · rw [applyOps, successCount, hrest.1, hstep.1]
        omega
      · rw [applyOps, successCount, hrest.2, hstep.2]
        omega

/-- One update step preserves `recent_claims = total_claims`. -/
theorem apply_logs_eq (op : Op) (s : State)
    (h : s.recent_claims = s.total_claims) :
    (apply op s).recent_claims = (apply op s).total_claims := by
  cases op with
  | addCustodian caller c =>
      by_cases hc : caller ∈ s.custodians <;> simp [apply, add_custodian, hc, h]
  | removeCustodian caller c =>
      by_cases hc : caller ∈ s.custodians <;> simp [apply, remove_custodian, hc, h]
  | toggleFaucet caller b =>
      by_cases hc : caller ∈ s.custodians <;> simp [apply, toggle_faucet, hc, h]
  | setFaucetCode caller code =>
      by_cases hc : caller ∈ s.custodians <;> simp [apply, set_faucet_code, hc, h]
  | setFaucetAmount caller amt =>
      by_cases hc : caller ∈ s.custodians <;> simp [apply, set_faucet_amount, hc, h]
  | resetClaimed caller =>
      by_cases hc : caller ∈ s.custodians <;>
        simp [apply, reset_claimed_principals, hc, h]
  | claimFaucet caller code =>
      rcases apply_claim_eq caller code s with ⟨_, he⟩ | ⟨_, _, he⟩ <;> simp [he, h]
  | upgrade =>
      simp [apply, post_upgrade, pre_upgrade, h]

/-- One update step preserves duplicate-freeness of `claimed_principals`. -/
theorem apply_claimed_nodup (op : Op) (s : State)
    (h : s.claimed_principals.Nodup) :
    ((apply op s).claimed_principals).Nodup := by
  cases op with
  | addCustodian caller c =>
      by_cases hc : caller ∈ s.custodians <;> simp [apply, add_custodian, hc, h]
  | removeCustodian caller c =>
      by_cases hc : caller ∈ s.custodians <;> simp [apply, remove_custodian, hc, h]
  | toggleFaucet caller b =>
      by_cases hc : caller ∈ s.custodians <;> simp [apply, toggle_faucet, hc, h]
  | setFaucetCode caller code =>
      by_cases hc : caller ∈ s.custodians <;> simp [apply, set_faucet_code, hc, h]
  | setFaucetAmount caller amt =>
      by_cases hc : caller ∈ s.custodians <;> simp [apply, set_faucet_amount, hc, h]
  | resetClaimed caller =>
      by_cases hc : caller ∈ s.custodians <;>
        simp [apply, reset_claimed_principals, hc, h]
  | claimFaucet caller code =>
      rcases apply_claim_eq caller code s with ⟨_, he⟩ | ⟨_, hmem, he⟩
      · rw [he]; exact h
      · rw [he]
        simpa [List.concat_eq_append] using List.Nodup.concat hmem h
  | upgrade =>
      simpa [apply, post_upgrade, pre_upgrade] using h

/-- A run from a duplicate-free `claimed_principals` stays duplicate-free. -/
theorem applyOps_claimed_nodup (ops : List Op) (s : State)
    (h : s.claimed_principals.Nodup) :
    ((applyOps ops s).claimed_principals).Nodup := by
  induction ops generalizing s with
  | nil => simpa [applyOps] using h
  | cons op rest ih => exact ih (apply op s) (apply_claimed_nodup op s h)

/-!  ## Claim theorems  -/

/-- C1: `claim_faucet` checks its three preconditions in strict order —
disabled faucet yields `FaucetDisabled`; enabled but wrong code yields
`InvalidCode`; enabled, right code, but already-claimed caller yields
`AlreadyClaimed` — and on any failure the host keeps the state completely
unchanged. -/
theorem claim_preconditions_ordered (s : State) (caller : Principal) (code : String) :
    (s.is_faucet_enabled = false →
      claim_faucet caller code s = Except.error FaucetError.FaucetDisabled)
    ∧ (s.is_faucet_enabled = true → code ≠ s.faucet_code →
      claim_faucet caller code s = Except.error FaucetError.InvalidCode)
    ∧ (s.is_faucet_enabled = true → code = s.faucet_code →
      caller ∈ s.claimed_principals →
      claim_faucet caller code s = Except.error FaucetError.AlreadyClaimed)
    ∧ (∀ e : FaucetError, claim_faucet caller code s = Except.error e →
      apply (Op.claimFaucet caller code) s = s) := by
  refine ⟨?_, ?_, ?_, ?_⟩
  · intro h
    simp [claim_faucet, h]
  · intro h hne
    simp [claim_faucet, h, hne]
  · intro h he hmem
    simp [claim_faucet, h, he, hmem]
  · intro e herr
    simp [apply, herr]

/-- Witness for C1 at concrete states: a disabled faucet, a wrong code, and
an already-claimed caller each produce the stated error, and the failed
claim leaves the state unchanged. -/
theorem claim_preconditions_ordered_witness :
    claim_faucet 1 "abc" stDisabled = Except.error FaucetError.FaucetDisabled
    ∧ claim_faucet 1 "bad" stEnabled = Except.error FaucetError.InvalidCode
    ∧ claim_faucet 1 "abc" stClaimed = Except.error FaucetError.AlreadyClaimed
    ∧ apply (Op.claimFaucet 1 "abc") stDisabled = stDisabled := by
  refine ⟨?_, ?_, ?_, ?_⟩
  · exact (claim_preconditions_ordered stDisabled 1 "abc").1 (by decide)
  · exact (claim_preconditions_ordered stEnabled 1 "bad").2.1 (by decide) (by decide)
  · exact (claim_preconditions_ordered stClaimed 1 "abc").2.2.1 (by decide) (by decide)
      (by decide)
  · exact (claim_preconditions_ordered stDisabled 1 "abc").2.2.2
      FaucetError.FaucetDisabled
      ((claim_preconditions_ordered stDisabled 1 "abc").1 (by decide))

/-- C3: every administrative operation invoked by a caller outside the
custodian set fails with `Unauthorized`, and the host keeps every field of
the state unchanged. -/
theorem admin_gate_unauthorized (s : State) (y c : Principal) (b : Bool)
    (code : String) (amt : Nat) (h : y ∉ s.custodians) :
    (add_custodian y c s = Except.error FaucetError.Unauthorized
      ∧ apply (Op.addCustodian y c) s = s)
    ∧ (remove_custodian y c s = Except.error FaucetError.Unauthorized
      ∧ apply (Op.removeCustodian y c) s = s)
    ∧ (toggle_faucet y b s = Except.error FaucetError.Unauthorized
      ∧ apply (Op.toggleFaucet y b) s = s)
    ∧ (set_faucet_code y code s = Except.error FaucetError.Unauthorized
      ∧ apply (Op.setFaucetCode y code) s = s)
    ∧ (set_faucet_amount y amt s = Except.error FaucetError.Unauthorized
      ∧ apply (Op.setFaucetAmount y amt) s = s)
    ∧ (reset_claimed_principals y s = Except.error FaucetError.Unauthorized
      ∧ apply (Op.resetClaimed y) s = s) := by
  refine ⟨⟨?_, ?_⟩, ⟨?_, ?_⟩, ⟨?_, ?_⟩, ⟨?_, ?_⟩, ⟨?_, ?_⟩, ⟨?_, ?_⟩⟩ <;>
    simp [add_custodian, remove_custodian, toggle_faucet, set_faucet_code,
      set_faucet_amount, reset_claimed_principals, apply, h]

/-- Witness for C3: identity `1` is not a custodian of `init 0`, and each
admin operation it attempts is rejected with the state unchanged. -/
theorem admin_gate_unauthorized_witness :
    (add_custodian 1 2 (init 0) = Except.error FaucetError.Unauthorized
      ∧ apply (Op.addCustodian 1 2) (init 0) = init 0)
    ∧ (remove_custodian 1 0 (init 0) = Except.error FaucetError.Unauthorized
      ∧ apply (Op.removeCustodian 1 0) (init 0) = init 0)
    ∧ (toggle_faucet 1 true (init 0) = Except.error FaucetError.Unauthorized
      ∧ apply (Op.toggleFaucet 1 true) (init 0) = init 0)
    ∧ (set_faucet_code 1 "abc" (init 0) = Except.error FaucetError.Unauthorized
      ∧ apply (Op.setFaucetCode 1 "abc") (init 0) = init 0)
    ∧ (set_faucet_amount 1 7 (init 0) = Except.error FaucetError.Unauthorized
      ∧ apply (Op.setFaucetAmount 1 7) (init 0) = init 0)
    ∧ (reset_claimed_principals 1 (init 0) = Except.error FaucetError.Unauthorized
      ∧ apply (Op.resetClaimed 1) (init 0) = init 0) :=
  admin_gate_unauthorized (init 0) 1 2 true "abc" 7 (by decide)

/-- C5: when all three preconditions hold, the successful claim performs
exactly three mutations — caller appended to `claimed_principals`,
`(caller, faucet_amount)` appended to both `recent_claims` and
`total_claims` — with every other field unchanged. -/
theorem claim_success_mutations (s : State) (caller : Principal) (code : String)
    (h1 : s.is_faucet_enabled = true) (h2 : code = s.faucet_code)
    (h3 : caller ∉ s.claimed_principals) :
    claim_faucet caller code s = Except.ok
      { s with
        claimed_principals := s.claimed_principals ++ [caller]
        recent_claims := s.recent_claims ++ [(caller, s.faucet_amount)]
        total_claims := s.total_claims ++ [(caller, s.faucet_amount)] } := by
  simp [claim_faucet, h1, h2, h3]

/-- Witness for C5: identity `2` claiming on `stEnabled` with the right code
succeeds with exactly the three appends. -/
theorem claim_success_mutations_witness :
    claim_faucet 2 "abc" stEnabled = Except.ok
      { stEnabled with
        claimed_principals := stEnabled.claimed_principals ++ [2]
        recent_claims := stEnabled.recent_claims ++ [(2, stEnabled.faucet_amount)]
        total_claims := stEnabled.total_claims ++ [(2, stEnabled.faucet_amount)] } :=
  claim_success_mutations stEnabled 2 "abc" (by decide) (by decide) (by decide)

/-- C7: suspending (pre_upgrade snapshot of every field) and then resuming
(post_upgrade restore) yields a state observably identical to the original
in every field. -/
theorem upgrade_roundtrip (s : State) :
    post_upgrade (pre_upgrade s) = s
    ∧ (post_upgrade (pre_upgrade s)).custodians = s.custodians
    ∧ (post_upgrade (pre_upgrade s)).is_faucet_enabled = s.is_faucet_enabled
    ∧ (post_upgrade (pre_upgrade s)).faucet_code = s.faucet_code
    ∧ (post_upgrade (pre_upgrade s)).faucet_amount = s.faucet_amount
    ∧ (post_upgrade (pre_upgrade s)).claimed_principals = s.claimed_principals
    ∧ (post_upgrade (pre_upgrade s)).recent_claims = s.recent_claims
    ∧ (post_upgrade (pre_upgrade s)).total_claims = s.total_claims := by
  refine ⟨?_, by simp [post_upgrade, pre_upgrade], by simp [post_upgrade, pre_upgrade],
    by simp [post_upgrade, pre_upgrade], by simp [post_upgrade, pre_upgrade],
    by simp [post_upgrade, pre_upgrade], by simp [post_upgrade, pre_upgrade],
    by simp [post_upgrade, pre_upgrade]⟩
  cases s
  rfl

/-- C6: an admin's `reset_claimed_principals` clears `claimed_principals`
and leaves every other field unchanged; afterwards any identity — in
particular one that had already claimed — can claim again while the faucet
is enabled with the right code, and `total_claims` then holds the old
entries plus the new one. -/
theorem reset_clears_claimed_only (s : State) (a x : Principal) (code : String)
    (ha : a ∈ s.custodians) (hen : s.is_faucet_enabled = true)
    (hcode : code = s.faucet_code) :
    reset_claimed_principals a s =
      Except.ok { s with claimed_principals := ([] : List Principal) }
    ∧ claim_faucet x code { s with claimed_principals := ([] : List Principal) } =
      Except.ok
        { s with
          claimed_principals := [x]
          recent_claims := s.recent_claims ++ [(x, s.faucet_amount)]
          total_claims := s.total_claims ++ [(x, s.faucet_amount)] } := by
  constructor
  · simp [reset_claimed_principals, ha]
  · simp [claim_faucet, hen, hcode]

/-- Witness for C6: resetting `stClaimed` (where identity `1` has claimed)
and letting `1` claim again appends a second `(1, 5)` entry to
`total_claims` while keeping the original one. -/
theorem reset_clears_claimed_only_witness :
    reset_claimed_principals 0 stClaimed =
      Except.ok { stClaimed with claimed_principals := ([] : List Principal) }
    ∧ claim_faucet 1 "abc" { stClaimed with claimed_principals := ([] : List Principal) } =
      Except.ok
        { stClaimed with
          claimed_principals := [1]
          recent_claims := stClaimed.recent_claims ++ [(1, stClaimed.faucet_amount)]
          total_claims := stClaimed.total_claims ++ [(1, stClaimed.faucet_amount)] } :=
  reset_clears_claimed_only stClaimed 0 1 "abc" (by decide) (by decide) (by decide)

/-- C9: `get_recent_claims` returns `recent_claims` exactly as stored,
front (oldest) first; a successful claim appends its entry at the back, so
the returned sequence of the new state is the old sequence with the new
claim last, and its last element is the most recent claim. -/
theorem recent_claims_insertion_order (s s2 : State) (caller : Principal)
    (code : String) (h : claim_faucet caller code s = Except.ok s2) :
    get_recent_claims s = s.recent_claims
    ∧ get_recent_claims s2 = get_recent_claims s ++ [(caller, s.faucet_amount)]
    ∧ (get_recent_claims s2).getLast? = some (caller, s.faucet_amount) := by
  have hmut := (claim_faucet_ok_inv h).2.2.2
  refine ⟨rfl, ?_, ?_⟩
  · rw [hmut]
    rfl
  · rw [hmut]
    simp [get_recent_claims]

/-- Witness for C9: identity `2` claims on `stEnabled`; the returned recent
claims end with `(2, 5)`. -/
theorem recent_claims_insertion_order_witness :
    get_recent_claims stEnabled = stEnabled.recent_claims
    ∧ get_recent_claims
        { stEnabled with
          claimed_principals := stEnabled.claimed_principals ++ [2]
          recent_claims := stEnabled.recent_claims ++ [(2, stEnabled.faucet_amount)]
          total_claims := stEnabled.total_claims ++ [(2, stEnabled.faucet_amount)] } =
      get_recent_claims stEnabled ++ [(2, stEnabled.faucet_amount)]
    ∧ (get_recent_claims
        { stEnabled with
          claimed_principals := stEnabled.claimed_principals ++ [2]
          recent_claims := stEnabled.recent_claims ++ [(2, stEnabled.faucet_amount)]
          total_claims := stEnabled.total_claims ++ [(2, stEnabled.faucet_amount)] }).getLast?
      = some (2, stEnabled.faucet_amount) :=
  recent_claims_insertion_order stEnabled _ 2 "abc" (by rfl)

/-- C2 counterexample: after the 11 successful claims of `opsEleven` the
reachable state's `recent_claims` holds 11 entries, so `get_recent_claims`
returns more than 10 entries — the code never truncates the deque. -/
theorem recent_claims_cap_counterexample :
    successCount opsEleven (init 0) = 11
    ∧ (get_recent_claims (applyOps opsEleven (init 0))).length = 11
    ∧ ¬ (applyOps opsEleven (init 0)).recent_claims.length ≤ 10 := by
  refine ⟨by rfl, by rfl, by decide⟩

/-- C2 amended: `recent_claims` is unbounded — in every reachable state its
length equals the total number of successful claims ever made (no 10-entry
cap is enforced), and `get_total_claims` likewise returns one entry per
successful claim. -/
theorem recent_claims_unbounded (c : Principal) (ops : List Op) :
    (get_recent_claims (applyOps ops (init c))).length = successCount ops (init c)
    ∧ (get_total_claims (applyOps ops (init c))).length = successCount ops (init c) := by
  have h := applyOps_log_lengths ops (init c)
  simpa [get_recent_claims, get_total_claims, init, State.default,
    hashsetInsert] using h

/-- C4 counterexample: identity `1` successfully claims on `stEnabled`
(code `"abc"`); its second attempt with code `"bad"` — faucet still
enabled — fails with `InvalidCode`, not `AlreadyClaimed`, because the code
check precedes the already-claimed check. -/
theorem second_claim_wrong_code_counterexample :
    claim_faucet 1 "abc" stEnabled = Except.ok stClaimed
    ∧ stClaimed.is_faucet_enabled = true
    ∧ claim_faucet 1 "bad" stClaimed = Except.error FaucetError.InvalidCode
    ∧ FaucetError.InvalidCode ≠ FaucetError.AlreadyClaimed := by
  refine ⟨by rfl, by rfl, by rfl, by decide⟩

/-- C4 amended: after a successful claim by X, a second attempt by X with
the *correct* code (faucet enabled) fails with `AlreadyClaimed` (a wrong
code fails earlier with `InvalidCode`); and in every reachable state
`claimed_principals` lists X at most once. -/
theorem second_claim_already_claimed :
    (∀ (s s2 : State) (x : Principal) (code code2 : String),
      claim_faucet x code s = Except.ok s2 → s2.is_faucet_enabled = true →
      code2 = s2.faucet_code →
      claim_faucet x code2 s2 = Except.error FaucetError.AlreadyClaimed)
    ∧ (∀ (c x : Principal) (ops : List Op),
      ((applyOps ops (init c)).claimed_principals).count x ≤ 1) := by
  constructor
  · intro s s2 x code code2 h hen hc
    obtain ⟨h1, h2, h3, hs2⟩ := claim_faucet_ok_inv h
    have hx : x ∈ s2.claimed_principals := by rw [hs2]; simp
    simp [claim_faucet, hen, hc, hx]
  · intro c x ops
    have hnodup : ((applyOps ops (init c)).claimed_principals).Nodup :=
      applyOps_claimed_nodup ops (init c)
        (by simp [init, State.default, hashsetInsert])
    exact List.nodup_iff_count_le_one.mp hnodup x

/-- Witness for C4 (amended): identity `1` has claimed in `stClaimed`;
repeating the claim with the correct code fails with `AlreadyClaimed`, and
the initial state counts `1` at most once. -/
theorem second_claim_already_claimed_witness :
    claim_faucet 1 "abc" stClaimed = Except.error FaucetError.AlreadyClaimed
    ∧ ((applyOps [] (init 0)).claimed_principals).count 1 ≤ 1 :=
  ⟨second_claim_already_claimed.1 stEnabled stClaimed 1 "abc" "abc"
      (by rfl) (by rfl) (by rfl),
   second_claim_already_claimed.2 0 1 []⟩

/-- C8 counterexample: the deployer `0` is the only custodian of `init 0`,
yet `remove_custodian 0 0` succeeds and empties the custodian set — the
code never rejects a removal of the last admin. -/
theorem last_admin_removal_counterexample :
    0 ∈ (init 0).custodians
    ∧ remove_custodian 0 0 (init 0) =
        Except.ok { init 0 with custodians := ([] : List Principal) }
    ∧ (apply (Op.removeCustodian 0 0) (init 0)).custodians = [] := by
  refine ⟨by decide, by rfl, by rfl⟩

/-- C8 amended: `init` seeds the deploying caller, so the admin set is
non-empty right after initialization; but `remove_custodian` removes
unconditionally for any custodian caller, so a custodian can remove the
last admin and reach a state with an empty admin set. -/
theorem init_nonempty_remove_unguarded :
    (∀ c : Principal, (init c).custodians = [c])
    ∧ (∀ (s : State) (a x : Principal), a ∈ s.custodians →
        remove_custodian a x s =
          Except.ok { s with custodians := hashsetRemove x s.custodians })
    ∧ (∀ c : Principal, (apply (Op.removeCustodian c c) (init c)).custodians = []) := by
  refine ⟨?_, ?_, ?_⟩
  · intro c
    simp [init, State.default, hashsetInsert]
  · intro s a x ha
    simp [remove_custodian, ha]
  · intro c
    simp [apply, remove_custodian, init, State.default, hashsetInsert, hashsetRemove]

/-- Witness for C8 (amended): concrete instances of all three conjuncts,
with custodian `0` of `stEnabled` removing itself. -/
theorem init_nonempty_remove_unguarded_witness :
    (init 3).custodians = [3]
    ∧ remove_custodian 0 0 stEnabled =
        Except.ok { stEnabled with custodians := hashsetRemove 0 stEnabled.custodians }
    ∧ (apply (Op.removeCustodian 4 4) (init 4)).custodians = [] :=
  ⟨init_nonempty_remove_unguarded.1 3,
   init_nonempty_remove_unguarded.2.1 stEnabled 0 0 (by decide),
   init_nonempty_remove_unguarded.2.2 4⟩

/-- C10: in every reachable state `recent_claims` and `total_claims` hold
exactly the same sequence of entries — each successful claim appends the
same pair to both and no operation removes from either — so
`get_recent_claims` and `get_total_claims` always return equal sequences. -/
theorem recent_equals_total (c : Principal) (ops : List Op) :
    get_recent_claims (applyOps ops (init c))
      = get_total_claims (applyOps ops (init c)) := by
  show (applyOps ops (init c)).recent_claims = (applyOps ops (init c)).total_claims
  have hstep : ∀ s : State, s.recent_claims = s.total_claims →
      (applyOps ops s).recent_claims = (applyOps ops s).total_claims := by
    induction ops with
    | nil => intro s hs; simpa [applyOps] using hs
    | cons op rest ih => intro s hs; exact ih (apply op s) (apply_logs_eq op s hs)
  exact hstep (init c) (by simp [init, State.default, hashsetInsert])
